import Mathlib

/-!
Verification of the metrics aggregation and report-generation engine of
streamlit_sonar_metrics.py, as a shallow embedding in Lean 4.

Modelling conventions:
- Python strings are Lean String values; the character-level operations
  (strip, upper, lower, lexicographic comparison) are reimplemented over
  List Char so that they evaluate inside the kernel.  They cover the ASCII
  range, which is all the program ever feeds them.
- Python floats obtained from float(...) on a decimal literal are modelled
  exactly, as an integer mantissa with a power-of-ten denominator (Dec),
  together with the three special values inf, -inf and nan (PyNum).  The
  rounding of a decimal literal to binary64 is not modelled: literals are
  kept exact, and round(x, n) uses round-half-to-even on the exact value.
  Double overflow of huge exponents (float("1e999") = inf) is likewise not
  modelled.  NaN and infinity propagation and comparison follow IEEE rules,
  which is what every comparison in the source performs.
- A worksheet cell (openpyxl) or dataframe entry holds a string, an int,
  a float, or None; the Cell type has one constructor for each.
- Python exceptions that escape a function are modelled with Except; the
  only escaping exception in the modelled core is the OverflowError raised
  by int(float(v)) when v parses to an infinity, which the
  except (ValueError, TypeError) clause of convert_to_numeric_or_na does
  not catch.
-/

/-- An exact decimal number: the value num / 10 ^ exp.  This is the form in
which float(...) of a decimal literal is modelled. -/
structure Dec where
  num : Int
  exp : Nat
deriving DecidableEq

/-- The rational value of a Dec (used in specification statements only). -/
def Dec.val (d : Dec) : Rat := (d.num : Rat) / (10 : Rat) ^ d.exp

/-- A Python float: an exact decimal, or one of the IEEE special values. -/
inductive PyNum where
  | finite (d : Dec)
  | inf
  | ninf
  | nan
deriving DecidableEq

/-- IEEE strict less-than between Python numbers: any comparison with nan is
false; infinities compare as expected; finite values compare exactly.
a/10^e1 < b/10^e2  iff  a * 10^e2 < b * 10^e1. -/
def Dec.ltB (a b : Dec) : Bool := a.num * (10 : Int) ^ b.exp < b.num * (10 : Int) ^ a.exp

/-- IEEE less-or-equal between exact decimals. -/
def Dec.leB (a b : Dec) : Bool := a.num * (10 : Int) ^ b.exp ≤ b.num * (10 : Int) ^ a.exp

/-- Python < on numbers (IEEE: false whenever nan is involved). -/
def PyNum.lt : PyNum → PyNum → Bool
  | .finite a, .finite b => a.ltB b
  | .finite _, .inf => true
  | .ninf, .finite _ => true
  | .ninf, .inf => true
  | _, _ => false

/-- Python <= on numbers (IEEE: false whenever nan is involved). -/
def PyNum.le : PyNum → PyNum → Bool
  | .finite a, .finite b => a.leB b
  | .finite _, .inf => true
  | .ninf, .finite _ => true
  | .ninf, .inf => true
  | .ninf, .ninf => true
  | .inf, .inf => true
  | _, _ => false

/-- A worksheet cell / dataframe entry: string, int, float or None. -/
inductive Cell where
  | str (s : String)
  | int (n : Int)
  | float (x : PyNum)
  | null
deriving DecidableEq

/-- isinstance(value, (int, float)): the numeric content of a cell, if any. -/
def Cell.asNum? : Cell → Option PyNum
  | .int n => some (.finite ⟨n, 0⟩)
  | .float x => some x
  | _ => none

/-! ### Character-level string operations (Python str.strip / upper / lower) -/

/-- The ASCII whitespace characters stripped by Python str.strip() and by
float(); the uncommon unicode whitespace is not modelled. -/
def pyWhitespace (c : Char) : Bool :=
  c = ' ' || c = '\t' || c = '\n' || c = '\r' || c = '\x0b' || c = '\x0c'

/-- Strip leading and trailing whitespace from a character list. -/
def listStrip (cs : List Char) : List Char :=
  ((cs.dropWhile pyWhitespace).reverse.dropWhile pyWhitespace).reverse

/-- ASCII upper-casing of one character. -/
def pyCharUpper (c : Char) : Char :=
  if 'a' ≤ c && c ≤ 'z' then Char.ofNat (c.toNat - 32) else c

/-- ASCII lower-casing of one character. -/
def pyCharLower (c : Char) : Char :=
  if 'A' ≤ c && c ≤ 'Z' then Char.ofNat (c.toNat + 32) else c

/-- Python value.strip().upper() on a string. -/
def stripUpper (s : String) : String := ⟨(listStrip s.data).map pyCharUpper⟩

/-! ### The float(...) literal parser -/

/-- Optional leading sign: returns (isNegative, rest). -/
def splitSign : List Char → (Bool × List Char)
  | '-' :: r => (true, r)
  | '+' :: r => (false, r)
  | r => (false, r)

/-- Remove the digit-grouping underscores of a Python numeric literal.
An underscore is legal only directly between two digits; the boolean
argument records whether the previous kept character was a digit. -/
def stripUnd : Bool → List Char → Option (List Char)
  | _, [] => some []
  | prev, c :: rest =>
    if c = '_' then
      match prev, rest with
      | true, d :: _ => if d.isDigit then stripUnd false rest else none
      | _, _ => none
    else
      match stripUnd c.isDigit rest with
      | some r => some (c :: r)
      | none => none

/-- Numeric value of a list of ASCII digits. -/
def digitsToNat (ds : List Char) : Nat :=
  ds.foldl (fun a c => a * 10 + (c.toNat - 48)) 0

/-- Parse the exponent suffix of a float literal (input already lower-cased):
empty means exponent 0; otherwise the letter e, an optional sign and at
least one digit, consuming the whole remainder. -/
def parseExp : List Char → Option Int
  | [] => some 0
  | 'e' :: r =>
    let (neg, r2) := splitSign r
    let ds := r2.takeWhile Char.isDigit
    let rest := r2.dropWhile Char.isDigit
    if ds.isEmpty || !rest.isEmpty then none
    else some (if neg then -(digitsToNat ds : Int) else (digitsToNat ds : Int))
  | _ => none

/-- Build the exact decimal for mantissa digits and a decimal exponent. -/
def decOfParts (neg : Bool) (mant : Nat) (e : Int) : Dec :=
  let m : Int := if neg then -(mant : Int) else (mant : Int)
  if 0 ≤ e then ⟨m * (10 : Int) ^ e.toNat, 0⟩ else ⟨m, (-e).toNat⟩

/-- Parse the digits [. digits] [exponent] body of a float literal
(sign already removed, already lower-cased, underscores removed). -/
def parseDecCore (neg : Bool) (cs : List Char) : Option Dec :=
  let ip := cs.takeWhile Char.isDigit
  let r1 := cs.dropWhile Char.isDigit
  match r1 with
  | '.' :: r2 =>
    let fp := r2.takeWhile Char.isDigit
    let r3 := r2.dropWhile Char.isDigit
    if ip.isEmpty && fp.isEmpty then none
    else
      match parseExp r3 with
      | none => none
      | some e => some (decOfParts neg (digitsToNat (ip ++ fp)) (e - fp.length))
  | _ =>
    if ip.isEmpty then none
    else
      match parseExp r1 with
      | none => none
      | some e => some (decOfParts neg (digitsToNat ip) e)

/-- Python float(s): strip whitespace, take an optional sign, then either an
infinity or nan word or a decimal literal with optional grouping
underscores.  Returns none where float(s) raises ValueError. -/
def parseFloat (s : String) : Option PyNum :=
  let cs := (listStrip s.data).map pyCharLower
  let (neg, body) := splitSign cs
  if body = ['i', 'n', 'f'] || body = ['i', 'n', 'f', 'i', 'n', 'i', 't', 'y'] then
    some (if neg then .ninf else .inf)
  else if body = ['n', 'a', 'n'] then some .nan
  else
    match stripUnd false body with
    | none => none
    | some b =>
      match parseDecCore neg b with
      | none => none
      | some d => some (.finite d)

/-! ### Truncation and rounding -/

/-- Python int(f) for a finite float: truncation toward zero.  Int division
in the T convention is exactly this truncation. -/
def Dec.trunc (d : Dec) : Int := Int.tdiv d.num ((10 : Int) ^ d.exp)

/-- Round-half-to-even of n / d for positive d (the rounding Python round
performs). -/
def rheDiv (n : Int) (d : Int) : Int :=
  let q := Int.fdiv n d
  let r := n - q * d
  if 2 * r < d then q
  else if d < 2 * r then q + 1
  else if q % 2 = 0 then q else q + 1

/-- Python round(x, p) on an exact decimal. -/
def Dec.roundTo (d : Dec) (p : Nat) : Dec :=
  if d.exp ≤ p then ⟨d.num * (10 : Int) ^ (p - d.exp), p⟩
  else ⟨rheDiv d.num ((10 : Int) ^ (d.exp - p)), p⟩

/-- Python round(x, p) on a float: nan and the infinities round to
themselves. -/
def PyNum.roundTo (x : PyNum) (p : Nat) : PyNum :=
  match x with
  | .finite d => .finite (d.roundTo p)
  | other => other

/-! ### convert_to_numeric_or_na (source lines 100-118) -/

/-- The as_type / decimal_places arguments of convert_to_numeric_or_na:
as_type=int, as_type=float with its optional decimal_places, or the
default as_type=None which passes the value through. -/
inductive AsType where
  | int
  | float (decimalPlaces : Option Nat)
  | passthrough
deriving DecidableEq

/-- Decidable equality for Except results, used to evaluate the model on
concrete inputs. -/
instance {ε α : Type} [DecidableEq ε] [DecidableEq α] : DecidableEq (Except ε α) :=
  fun x y =>
    match x, y with
    | .error e, .error f =>
      match decEq e f with
      | isTrue h => isTrue (h ▸ rfl)
      | isFalse h => isFalse (fun hh => h (Except.error.inj hh))
    | .error _, .ok _ => isFalse (fun hh => Except.noConfusion hh)
    | .ok _, .error _ => isFalse (fun hh => Except.noConfusion hh)
    | .ok a, .ok b =>
      match decEq a b with
      | isTrue h => isTrue (h ▸ rfl)
      | isFalse h => isFalse (fun hh => h (Except.ok.inj hh))

/-- The one Python exception that escapes the modelled core: OverflowError
from int() of an infinite float, not caught by except (ValueError,
TypeError). -/
inductive PyErr where
  | overflowError
deriving DecidableEq

/-- convert_to_numeric_or_na(value, as_type, decimal_places).
None, or a string whose strip().upper() is "N/A", gives "N/A"; for int the
value is parsed as a float then truncated (parse failure and int(nan) raise
ValueError, which is caught and gives "N/A", while int of an infinity
raises OverflowError, which the except clause does not catch); for float
the parse is rounded when decimal_places is given; otherwise the value is
returned unchanged. -/
def convert_to_numeric_or_na (value : Option String) (asType : AsType) :
    Except PyErr Cell :=
  match value with
  | none => .ok (.str "N/A")
  | some s =>
    if stripUpper s = "N/A" then .ok (.str "N/A")
    else
      match asType with
      | .int =>
        match parseFloat s with
        | none => .ok (.str "N/A")
        | some (.finite d) => .ok (.int d.trunc)
        | some .nan => .ok (.str "N/A")
        | some .inf => .error .overflowError
        | some .ninf => .error .overflowError
      | .float dp =>
        match parseFloat s with
        | none => .ok (.str "N/A")
        | some x =>
          .ok (.float (match dp with
            | none => x
            | some p => x.roundTo p))
      | .passthrough => .ok (.str s)

/-! ### RATING_MAP (source lines 39-46) -/

/-- The numeric-code to letter-grade table. -/
def RATING_MAP : List (String × String) :=
  [("1.0", "A"), ("2.0", "B"), ("3.0", "C"), ("4.0", "D"), ("5.0", "E"),
   ("N/A", "N/A")]

/-- RATING_MAP.get(code, "N/A"): dictionary lookup with default. -/
def rating_map_get (code : String) : String :=
  match RATING_MAP.find? (fun kv => kv.1 == code) with
  | some kv => kv.2
  | none => "N/A"

/-! ### Projects, the metric-key schema and row building
(populate_sheet_with_data, source lines 149-180) -/

/-- One project as handed to populate_sheet_with_data by process_project:
name, key, the raw metric samples, and the last analysis date (None when
the source has no analysis). -/
structure Project where
  name : String
  key : String
  metrics : List (String × String)
  last_analysis_date : Option String

/-- Python dict lookup for a dict built from an association list by a
comprehension: a later duplicate key overwrites an earlier one, and .get of
an absent key yields None. -/
def dictGet {α : Type} (l : List (String × α)) (k : String) : Option α :=
  match l.reverse.find? (fun kv => kv.1 == k) with
  | some kv => some kv.2
  | none => none

/-- metric_keys_str.split(","), for the fixed metric-key string of
main_streamlit (source lines 755-762). -/
def raw_metric_keys_list : List String :=
  ["alert_status", "ncloc", "bugs", "reliability_rating", "vulnerabilities",
   "security_rating", "security_review_rating", "code_smells", "sqale_rating",
   "duplicated_lines_density", "coverage"]

/-- The metrics written as ints in the sheet (source lines 154-155). -/
def excel_int_metrics : List String :=
  ["ncloc", "bugs", "reliability_rating", "vulnerabilities", "security_rating",
   "security_review_rating", "code_smells", "sqale_rating"]

/-- The metrics written as one-decimal floats (source line 156). -/
def excel_float_metrics : List String := ["duplicated_lines_density", "coverage"]

/-- The passthrough arm of the row loop: value if value is not None else
"N/A" (source line 170). -/
def passCell (v : Option String) : Cell :=
  match v with
  | some s => .str s
  | none => .str "N/A"

/-- One metric cell of the detail row (source lines 163-170). -/
def metricCellE (m : String → Option String) (k : String) : Except PyErr Cell :=
  if excel_int_metrics.contains k then convert_to_numeric_or_na (m k) .int
  else if excel_float_metrics.contains k then
    convert_to_numeric_or_na (m k) (.float (some 1))
  else .ok (passCell (m k))

/-- The metric cells of one row, in schema order. -/
def metricCellsE (m : String → Option String) : List String → Except PyErr (List Cell)
  | [] => .ok []
  | k :: ks =>
    match metricCellE m k with
    | .error e => .error e
    | .ok c =>
      match metricCellsE m ks with
      | .error e => .error e
      | .ok cs => .ok (c :: cs)

/-- One derived letter-rating cell,
RATING_MAP.get(metrics_map.get(key, "N/A"), "N/A") (source lines 172-177). -/
def ratingCell (m : String → Option String) (k : String) : Cell :=
  .str (rating_map_get ((m k).getD "N/A"))

/-- One full detail row of the workbook sheet: name, key, the metric cells,
the four rating cells, and the last analysis date appended unchanged -- a
None date stays an empty (None) cell (source lines 159-180). -/
def buildRow (p : Project) : Except PyErr (List Cell) :=
  let m := dictGet p.metrics
  match metricCellsE m raw_metric_keys_list with
  | .error e => .error e
  | .ok mcells =>
    .ok ([Cell.str p.name, Cell.str p.key] ++ mcells ++
      [ratingCell m "reliability_rating", ratingCell m "security_rating",
       ratingCell m "sqale_rating", ratingCell m "security_review_rating",
       (match p.last_analysis_date with
        | some d => Cell.str d
        | none => Cell.null)])

/-- populate_sheet_with_data: the data rows appended to the sheet, one per
project, in input order. -/
def populate_sheet_with_data : List Project → Except PyErr (List (List Cell))
  | [] => .ok []
  | p :: ps =>
    match buildRow p with
    | .error e => .error e
    | .ok row =>
      match populate_sheet_with_data ps with
      | .error e => .error e
      | .ok rows => .ok (row :: rows)

/-- create_headers (source lines 122-135). -/
def create_headers : List String :=
  ["Project Name", "Project Key"] ++ raw_metric_keys_list ++
  ["Reliability Rating (A-E)", "Security Rating (A-E)",
   "Maintainability Rating (A-E)", "Security Hotspot Rating (A-E)",
   "last_analysis_date"]

/-- find_column_index (source lines 587-594), with 0-based indices where the
source uses 1-based enumerate; column extraction below is 0-based to match. -/
def find_column_index (headers : List String) (column_name : String) : Option Nat :=
  headers.findIdx? (fun h => h == column_name)

/-- The cells of one sheet column over the data rows (iter_rows with
min_col = max_col = the column, rows 2 and below). -/
def column (rows : List (List Cell)) (i : Nat) : List Cell :=
  rows.map (fun r => r.getD i Cell.null)

/-! ### Aggregation (source lines 517-585) -/

/-- The duplication bucket of one cell: the if/elif chain of
calculate_duplication_counts for a numeric value, the N/A bucket otherwise.
A numeric value for which no branch fires (only nan) is in no bucket. -/
def duplicationBucket (c : Cell) : Option String :=
  match c.asNum? with
  | some v =>
    if v.lt (.finite ⟨3, 0⟩) then some "< 3%"
    else if (PyNum.le (.finite ⟨3, 0⟩) v && v.lt (.finite ⟨5, 0⟩)) then some "3% - 5%"
    else if (PyNum.le (.finite ⟨5, 0⟩) v && v.lt (.finite ⟨10, 0⟩)) then some "5% - 10%"
    else if (PyNum.le (.finite ⟨10, 0⟩) v && v.lt (.finite ⟨20, 0⟩)) then some "10% - 20%"
    else if PyNum.le (.finite ⟨20, 0⟩) v then some "> 20%"
    else none
  | none => some "N/A"

/-- calculate_duplication_counts: the final value of one counter of the
counts dict, for any of its six keys. -/
def calculate_duplication_counts (cells : List Cell) (label : String) : Nat :=
  cells.countP (fun c => duplicationBucket c == some label)

/-- The coverage bucket of one cell: the if/elif chain of
calculate_coverage_counts for a numeric value, the N/A bucket otherwise.
A numeric value for which no branch fires (only nan) is in no bucket. -/
def coverageBucket (c : Cell) : Option String :=
  match c.asNum? with
  | some v =>
    if v.lt (.finite ⟨10, 0⟩) then some "< 10%"
    else if (PyNum.le (.finite ⟨10, 0⟩) v && v.lt (.finite ⟨30, 0⟩)) then some "10% - 30%"
    else if (PyNum.le (.finite ⟨30, 0⟩) v && v.lt (.finite ⟨50, 0⟩)) then some "30% - 50%"
    else if (PyNum.le (.finite ⟨50, 0⟩) v && v.lt (.finite ⟨80, 0⟩)) then some "50% - 80%"
    else if PyNum.le (.finite ⟨80, 0⟩) v then some "> 80%"
    else none
  | none => some "N/A"

/-- calculate_coverage_counts: the final value of one counter of the counts
dict, for any of its six keys. -/
def calculate_coverage_counts (cells : List Cell) (label : String) : Nat :=
  cells.countP (fun c => coverageBucket c == some label)

/-- calculate_rating_counts increments counts[value] only when the cell
value is one of the dict keys A/B/C/D/E/"N/A" (if value in counts); a cell
holding anything else is counted nowhere. -/
def calculate_rating_counts (cells : List Cell) (label : String) : Nat :=
  cells.countP (fun c =>
    match c with
    | .str v => v == label
    | _ => false)

/-- The quality-gate bucket of one cell: "OK" and "ERROR" by string
equality, everything else "N/A" (source lines 578-584). -/
def gateBucket (c : Cell) : String :=
  if c = .str "OK" then "OK"
  else if c = .str "ERROR" then "ERROR"
  else "N/A"

/-- calculate_quality_gate_counts: the final value of one counter. -/
def calculate_quality_gate_counts (cells : List Cell) (label : String) : Nat :=
  cells.countP (fun c => gateBucket c == label)

/-- The bucket labels of the duplication dict, in dict order. -/
def duplicationLabels : List String :=
  ["< 3%", "3% - 5%", "5% - 10%", "10% - 20%", "> 20%", "N/A"]

/-- The bucket labels of the coverage dict, in dict order. -/
def coverageLabels : List String :=
  ["< 10%", "10% - 30%", "30% - 50%", "50% - 80%", "> 80%", "N/A"]

/-- The bucket labels of the rating dict, in dict order. -/
def ratingLabels : List String := ["A", "B", "C", "D", "E", "N/A"]

/-- The bucket labels of the quality-gate dict, in dict order. -/
def gateLabels : List String := ["OK", "ERROR", "N/A"]

/-- The sum of the bucket counters over a list of labels. -/
def sumCounts (f : String → Nat) (labels : List String) : Nat :=
  (labels.map f).sum

/-! ### The interactive-table (UI) record-building path
(main_streamlit, source lines 780-823) -/

/-- The target type recorded for a metric in the ui_numeric_metrics dict. -/
inductive TargetType where
  | tInt
  | tFloat
deriving DecidableEq

/-- ui_numeric_metrics (source lines 780-791). -/
def ui_numeric_metrics : List (String × TargetType) :=
  [("ncloc", .tInt), ("bugs", .tInt), ("reliability_rating", .tInt),
   ("vulnerabilities", .tInt), ("security_rating", .tInt),
   ("security_review_rating", .tInt), ("code_smells", .tInt),
   ("sqale_rating", .tInt), ("duplicated_lines_density", .tFloat),
   ("coverage", .tFloat)]

/-- One metric entry of the ui_row dict (source lines 806-814). -/
def uiMetricCellE (m : String → Option String) (k : String) : Except PyErr Cell :=
  match dictGet ui_numeric_metrics k with
  | some .tFloat => convert_to_numeric_or_na (m k) (.float (some 1))
  | some .tInt => convert_to_numeric_or_na (m k) .int
  | none => .ok (passCell (m k))

/-- One letter-rating entry of the ui_row dict (source lines 816-819);
the same expression as the workbook path computes. -/
def uiRatingCell (m : String → Option String) (k : String) : Cell :=
  .str (rating_map_get ((m k).getD "N/A"))

/-- The last_analysis_date entry of the ui_row dict (source line 821): here
a None date is replaced by "N/A". -/
def ui_last_analysis_date (p : Project) : Cell :=
  match p.last_analysis_date with
  | some d => .str d
  | none => .str "N/A"

/-- The value of one named column of the ui_row dict for a project. -/
def uiCellE (p : Project) (col : String) : Except PyErr Cell :=
  let m := dictGet p.metrics
  if col = "Project Name" then .ok (.str p.name)
  else if col = "Project Key" then .ok (.str p.key)
  else if col = "Reliability Rating (A-E)" then .ok (uiRatingCell m "reliability_rating")
  else if col = "Security Rating (A-E)" then .ok (uiRatingCell m "security_rating")
  else if col = "Maintainability Rating (A-E)" then .ok (uiRatingCell m "sqale_rating")
  else if col = "Security Hotspot Rating (A-E)" then
    .ok (uiRatingCell m "security_review_rating")
  else if col = "last_analysis_date" then .ok (ui_last_analysis_date p)
  else uiMetricCellE m col

/-! ### Rendering helpers for the dataframe string formatting -/

/-- Digits of a natural number, most significant first; the fuel argument
(any bound above the digit count, digit count <= n for positive n) makes
the recursion structural. -/
def natDigitsRev : Nat → Nat → List Char
  | 0, _ => []
  | fuel + 1, n => if n = 0 then [] else Char.ofNat (48 + n % 10) :: natDigitsRev fuel (n / 10)

/-- Decimal rendering of a natural number. -/
def natToChars (n : Nat) : List Char :=
  if n = 0 then ['0'] else (natDigitsRev (n + 1) n).reverse

/-- Decimal rendering of an integer. -/
def intToChars (n : Int) : List Char :=
  (if n < 0 then ['-'] else []) ++ natToChars n.natAbs

/-- Exact decimal rendering of a Dec, always with a fraction part (so a
whole number renders as in Python, with a trailing .0). -/
def decToChars (d : Dec) : List Char :=
  let a := d.num.natAbs
  let p := (10 : Nat) ^ d.exp
  let ds := natToChars (a % p)
  (if d.num < 0 then ['-'] else []) ++ natToChars (a / p) ++ ['.'] ++
    (if d.exp = 0 then ['0'] else List.replicate (d.exp - ds.length) '0' ++ ds)

/-- The dataframe formatting lambda of source lines 867-869: a number that
is not nan becomes the fixed-point one-decimal string of f-formatting
(round-half-to-even); nan, None and strings pass through unchanged. -/
def fmtFloat1 (c : Cell) : Cell :=
  match c with
  | .int n => .str ⟨decToChars (Dec.roundTo ⟨n, 0⟩ 1)⟩
  | .float (.finite d) => .str ⟨decToChars (d.roundTo 1)⟩
  | .float .inf => .str "inf"
  | .float .ninf => .str "-inf"
  | other => other

/-- The displayed (styled) value of one ui column: the two density columns
are string-formatted first (source lines 863-869). -/
def ui_display_cellE (p : Project) (col : String) : Except PyErr Cell :=
  match uiCellE p col with
  | .error e => .error e
  | .ok c =>
    .ok (if col = "duplicated_lines_density" || col = "coverage" then fmtFloat1 c else c)

/-! ### The two all-N/A row highlight criteria
(highlight_na_rows_excel, source lines 299-311, and
highlight_na_rows_dataframe, source lines 649-676) -/

/-- The workbook criterion: row[2:-1] (third column through second-to-last)
all equal to the exact string "N/A". -/
def highlight_na_rows_excel (row : List Cell) : Bool :=
  ((row.drop 2).dropLast).all (fun c => c = .str "N/A")

/-- pd.isna on a scalar cell: None and the float nan. -/
def pd_isna (c : Cell) : Bool := c = .null || c = .float .nan

/-- One checked cell clears the is_na_row flag of the dataframe criterion
when it is na/None or is a string other than (stripped, case-insensitive)
"N/A"; note a numeric cell never clears the flag. -/
def df_cell_breaks (v : Cell) : Bool :=
  pd_isna v ||
    (match v with
     | .str s => !(stripUpper s = "N/A")
     | _ => false)

/-- The dataframe criterion over the checked cells of a row. -/
def highlight_na_rows_dataframe (cells : List Cell) : Bool :=
  cells.all (fun v => !df_cell_breaks v)

/-- cols_to_check of highlight_na_rows_dataframe (source lines 654-660):
the same fifteen logical columns as positions 2..16 of the workbook row. -/
def cols_to_check : List String :=
  ["alert_status", "ncloc", "bugs", "reliability_rating", "vulnerabilities",
   "security_rating", "security_review_rating", "code_smells", "sqale_rating",
   "duplicated_lines_density", "coverage", "Reliability Rating (A-E)",
   "Security Rating (A-E)", "Maintainability Rating (A-E)",
   "Security Hotspot Rating (A-E)"]

/-- The displayed values of the checked columns for one project row. -/
def uiCheckedCellsE (p : Project) : List String → Except PyErr (List Cell)
  | [] => .ok []
  | col :: cols =>
    match ui_display_cellE p col with
    | .error e => .error e
    | .ok c =>
      match uiCheckedCellsE p cols with
      | .error e => .error e
      | .ok cs => .ok (c :: cs)

/-- Whether the interactive table highlights the row of a project. -/
def highlight_ui (p : Project) : Except PyErr Bool :=
  match uiCheckedCellsE p cols_to_check with
  | .error e => .error e
  | .ok cells => .ok (highlight_na_rows_dataframe cells)

/-! ### sort_and_clear_sheet (source lines 182-194) -/

/-- str(x) of the first cell of a row, as Python renders cell values.
The first column always holds the project-name string in this program;
the renderings of the numeric cell kinds are close approximations (exact
decimal, no trailing-zero trimming) and are never reached in the claims. -/
def pyStrCell : Cell → List Char
  | .str s => s.data
  | .int n => intToChars n
  | .float (.finite d) => decToChars d
  | .float .inf => ['i', 'n', 'f']
  | .float .ninf => ['-', 'i', 'n', 'f']
  | .float .nan => ['n', 'a', 'n']
  | .null => ['N', 'o', 'n', 'e']

/-- The sort key str(x[0]).lower() of a row. -/
def rowKey (r : List Cell) : List Char := (pyStrCell (r.headD Cell.null)).map pyCharLower

/-- Lexicographic comparison of character lists by code point: exactly the
Python string order used on the lowered keys. -/
def lexLe : List Char → List Char → Bool
  | [], _ => true
  | _ :: _, [] => false
  | a :: as, b :: bs =>
    if a.toNat < b.toNat then true
    else if b.toNat < a.toNat then false
    else lexLe as bs

/-- The row order of data.sort(key=lambda x: str(x[0]).lower()). -/
def rowLe (a b : List Cell) : Prop := lexLe (rowKey a) (rowKey b) = true

instance : DecidableRel rowLe := fun _ _ => inferInstanceAs (Decidable (_ = true))

/-- sort_and_clear_sheet: the data rows are replaced by the same rows in
ascending key order.  Python list.sort is a stable ascending sort by the
key; insertion sort realises exactly that specification. -/
def sort_and_clear_sheet (rows : List (List Cell)) : List (List Cell) :=
  List.insertionSort rowLe rows

/-! ### Order lemmas for the sort -/

lemma lexLe_refl (a : List Char) : lexLe a a = true := by
  induction a with
  | nil => rfl
  | cons x xs ih => simp [lexLe, ih]

lemma lexLe_total (a b : List Char) : lexLe a b = true ∨ lexLe b a = true := by
  induction a generalizing b with
  | nil => left; rfl
  | cons x xs ih =>
    cases b with
    | nil => right; rfl
    | cons y ys =>
      by_cases h1 : x.toNat < y.toNat
      · left; simp [lexLe, h1]
      · by_cases h2 : y.toNat < x.toNat
        · right; simp [lexLe, h1, h2]
        · have h3 := ih ys
          simpa [lexLe, h1, h2] using h3

lemma lexLe_trans : ∀ {a b c : List Char},
    lexLe a b = true → lexLe b c = true → lexLe a c = true := by
  intro a
  induction a with
  | nil => intro b c _ _; rfl
  | cons x xs ih =>
    intro b c hab hbc
    cases b with
    | nil => simp [lexLe] at hab
    | cons y ys =>
      cases c with
      | nil => simp [lexLe] at hbc
      | cons z zs =>
        simp only [lexLe] at hab hbc ⊢
        split_ifs at hab hbc ⊢ <;>
          first
            | rfl
            | omega
            | exact ih hab hbc

instance : IsTotal (List Cell) rowLe := ⟨fun a b => lexLe_total (rowKey a) (rowKey b)⟩

instance : IsTrans (List Cell) rowLe := ⟨fun _ _ _ hab hbc => lexLe_trans hab hbc⟩

lemma not_rowLe_key_ne {a b : List Cell} {k : List Char} (hk : rowKey a = k)
    (h : ¬ rowLe a b) : ¬ (rowKey b == k) = true := by
  intro hb
  rw [beq_iff_eq] at hb
  exact h (by unfold rowLe; rw [hk, hb]; exact lexLe_refl k)

lemma orderedInsert_filter_of_key (a : List Cell) (k : List Char) (hk : rowKey a = k) :
    ∀ l : List (List Cell),
      (List.orderedInsert rowLe a l).filter (fun x => rowKey x == k) =
        a :: l.filter (fun x => rowKey x == k) := by
  intro l
  induction l with
  | nil => simp [List.orderedInsert, List.filter, hk]
  | cons b l ih =>
    by_cases hr : rowLe a b
    · simp only [List.orderedInsert, if_pos hr]
      simp [List.filter, hk]
    · simp only [List.orderedInsert, if_neg hr]
      have hb := not_rowLe_key_ne hk hr
      simp only [List.filter_cons]
      rw [if_neg hb, ih]
      rw [if_neg hb]

lemma orderedInsert_filter_of_ne (a : List Cell) (k : List Char) (hk : ¬ rowKey a = k) :
    ∀ l : List (List Cell),
      (List.orderedInsert rowLe a l).filter (fun x => rowKey x == k) =
        l.filter (fun x => rowKey x == k) := by
  intro l
  have ha : ¬ (rowKey a == k) = true := by simpa using hk
  induction l with
  | nil => simp [List.orderedInsert, List.filter, ha]
  | cons b l ih =>
    by_cases hr : rowLe a b
    · simp only [List.orderedInsert, if_pos hr]
      simp only [List.filter_cons]
      rw [if_neg ha]
    · simp only [List.orderedInsert, if_neg hr]
      simp only [List.filter_cons]
      rw [ih]

/-- Stability of the modelled sort: the rows carrying any fixed sort key
appear in the output in their original relative order. -/
lemma sort_filter_stable (rows : List (List Cell)) (k : List Char) :
    (sort_and_clear_sheet rows).filter (fun x => rowKey x == k) =
      rows.filter (fun x => rowKey x == k) := by
  show (List.insertionSort rowLe rows).filter _ = _
  induction rows with
  | nil => rfl
  | cons a rows ih =>
    show (List.orderedInsert rowLe a (List.insertionSort rowLe rows)).filter _ = _
    by_cases hk : rowKey a = k
    · rw [orderedInsert_filter_of_key a k hk, ih]
      simp [List.filter_cons, hk]
    · rw [orderedInsert_filter_of_ne a k hk, ih]
      have ha : ¬ (rowKey a == k) = true := by simpa using hk
      simp only [List.filter_cons]
      rw [if_neg ha]

/-! ### Counting lemmas: every cell lands in exactly one bucket -/

lemma sum_map_add (labels : List String) (f g : String → Nat) :
    (labels.map (fun l => f l + g l)).sum = (labels.map f).sum + (labels.map g).sum := by
  induction labels with
  | nil => rfl
  | cons a ls ih => simp only [List.map_cons, List.sum_cons, ih]; omega

lemma sum_map_ite_eq_one {labels : List String} {l0 : String} (hnd : labels.Nodup)
    (hm : l0 ∈ labels) (p : String → Bool) (hp : ∀ l, p l = (l == l0)) :
    (labels.map (fun l => if p l then 1 else 0)).sum = 1 := by
  induction labels with
  | nil => cases hm
  | cons a ls ih =>
    simp only [List.map_cons, List.sum_cons]
    rcases List.mem_cons.mp hm with rfl | hm2
    · rw [hp]
      simp only [beq_self_eq_true, if_true]
      have ha : l0 ∉ ls := (List.nodup_cons.mp hnd).1
      have hz : (ls.map (fun l => if p l then 1 else 0)).sum = 0 := by
        apply List.sum_eq_zero
        intro x hx
        obtain ⟨l, hl, rfl⟩ := List.mem_map.mp hx
        have hne : ¬ (l == l0) = true := by
          simp only [beq_iff_eq]
          exact fun hh => ha (hh ▸ hl)
        rw [hp, if_neg hne]
      omega
    · have hne : a ≠ l0 := by
        have ha : a ∉ ls := (List.nodup_cons.mp hnd).1
        exact fun hh => ha (hh ▸ hm2)
      have hpa : ¬ (p a) = true := by
        rw [hp]
        simpa using hne
      rw [if_neg hpa]
      have := ih (List.nodup_cons.mp hnd).2 hm2
      omega

/-- If a classifier sends every cell of a list into the label set, the
bucket counters over that label set sum to the length of the list. -/
lemma sum_counts_classifier (clf : Cell → Option String) (labels : List String)
    (hnd : labels.Nodup) :
    ∀ cells : List Cell, (∀ c ∈ cells, ∃ l, clf c = some l ∧ l ∈ labels) →
      sumCounts (fun lbl => cells.countP (fun c => clf c == some lbl)) labels =
        cells.length := by
  intro cells
  induction cells with
  | nil => intro _; simp [sumCounts, List.countP_nil]
  | cons c cs ih =>
    intro h
    obtain ⟨l0, hcl, hl0⟩ := h c (List.mem_cons_self c cs)
    have hrest : ∀ x ∈ cs, ∃ l, clf x = some l ∧ l ∈ labels := fun x hx =>
      h x (List.mem_cons_of_mem _ hx)
    simp only [sumCounts, List.countP_cons]
    rw [sum_map_add labels (fun lbl => cs.countP (fun c2 => clf c2 == some lbl))
      (fun lbl => if (clf c == some lbl) = true then 1 else 0)]
    have h1 : (labels.map fun lbl => cs.countP (fun c2 => clf c2 == some lbl)).sum =
        cs.length := ih hrest
    have h2 : (labels.map fun lbl => if (clf c == some lbl) = true then 1 else 0).sum = 1 := by
      apply sum_map_ite_eq_one hnd hl0
      intro l
      rw [hcl]
      by_cases he : l = l0
      · subst he; simp
      · simp [he, Ne.symm he]
    rw [h1, h2]
    simp [List.length_cons]

/-! ### Bridging the exact-decimal comparisons to rational values -/

lemma Dec.ltB_iff (a b : Dec) : a.ltB b = true ↔ a.val < b.val := by
  unfold Dec.ltB Dec.val
  rw [decide_eq_true_eq]
  rw [div_lt_div_iff₀ (by positivity) (by positivity)]
  constructor
  · intro h
    exact_mod_cast h
  · intro h
    exact_mod_cast h

lemma Dec.leB_iff (a b : Dec) : a.leB b = true ↔ a.val ≤ b.val := by
  unfold Dec.leB Dec.val
  rw [decide_eq_true_eq]
  rw [div_le_div_iff₀ (by positivity) (by positivity)]
  constructor
  · intro h
    exact_mod_cast h
  · intro h
    exact_mod_cast h

lemma Dec.val_ofInt (n : Int) : Dec.val ⟨n, 0⟩ = (n : Rat) := by
  unfold Dec.val
  simp

/-! ### Bucket characterizations -/

lemma coverageBucket_finite (d : Dec) :
    coverageBucket (.float (.finite d)) =
      some (if d.val < 10 then "< 10%"
        else if d.val < 30 then "10% - 30%"
        else if d.val < 50 then "30% - 50%"
        else if d.val < 80 then "50% - 80%"
        else "> 80%") := by
  have l10 := Dec.ltB_iff d ⟨10, 0⟩
  have l30 := Dec.ltB_iff d ⟨30, 0⟩
  have l50 := Dec.ltB_iff d ⟨50, 0⟩
  have l80 := Dec.ltB_iff d ⟨80, 0⟩
  have g10 := Dec.leB_iff ⟨10, 0⟩ d
  have g30 := Dec.leB_iff ⟨30, 0⟩ d
  have g50 := Dec.leB_iff ⟨50, 0⟩ d
  have g80 := Dec.leB_iff ⟨80, 0⟩ d
  rw [Dec.val_ofInt] at l10 l30 l50 l80 g10 g30 g50 g80
  simp only [coverageBucket, Cell.asNum?, PyNum.lt, PyNum.le, Bool.and_eq_true]
  push_cast at l10 l30 l50 l80 g10 g30 g50 g80
  split_ifs with h1 h2 h3 h4 h5 <;> simp_all

lemma duplicationBucket_finite (d : Dec) :
    duplicationBucket (.float (.finite d)) =
      some (if d.val < 3 then "< 3%"
        else if d.val < 5 then "3% - 5%"
        else if d.val < 10 then "5% - 10%"
        else if d.val < 20 then "10% - 20%"
        else "> 20%") := by
  have l3 := Dec.ltB_iff d ⟨3, 0⟩
  have l5 := Dec.ltB_iff d ⟨5, 0⟩
  have l10 := Dec.ltB_iff d ⟨10, 0⟩
  have l20 := Dec.ltB_iff d ⟨20, 0⟩
  have g3 := Dec.leB_iff ⟨3, 0⟩ d
  have g5 := Dec.leB_iff ⟨5, 0⟩ d
  have g10 := Dec.leB_iff ⟨10, 0⟩ d
  have g20 := Dec.leB_iff ⟨20, 0⟩ d
  rw [Dec.val_ofInt] at l3 l5 l10 l20 g3 g5 g10 g20
  simp only [duplicationBucket, Cell.asNum?, PyNum.lt, PyNum.le, Bool.and_eq_true]
  push_cast at l3 l5 l10 l20 g3 g5 g10 g20
  split_ifs with h1 h2 h3 h4 h5 <;> simp_all

/-- Every cell except the float nan lands in some coverage bucket. -/
lemma coverageBucket_total (c : Cell) (hc : c ≠ Cell.float PyNum.nan) :
    ∃ l, coverageBucket c = some l ∧ l ∈ coverageLabels := by
  match c with
  | .str s => exact ⟨"N/A", rfl, by decide⟩
  | .null => exact ⟨"N/A", rfl, by decide⟩
  | .int n =>
    rw [show coverageBucket (.int n) = coverageBucket (.float (.finite ⟨n, 0⟩)) from rfl]
    rw [coverageBucket_finite]
    refine ⟨_, rfl, ?_⟩
    split_ifs <;> decide
  | .float x =>
    match x with
    | .finite d =>
      rw [coverageBucket_finite]
      refine ⟨_, rfl, ?_⟩
      split_ifs <;> decide
    | .inf => exact ⟨"> 80%", by decide, by decide⟩
    | .ninf => exact ⟨"< 10%", by decide, by decide⟩
    | .nan => exact absurd rfl hc

/-- Every cell except the float nan lands in some duplication bucket. -/
lemma duplicationBucket_total (c : Cell) (hc : c ≠ Cell.float PyNum.nan) :
    ∃ l, duplicationBucket c = some l ∧ l ∈ duplicationLabels := by
  match c with
  | .str s => exact ⟨"N/A", rfl, by decide⟩
  | .null => exact ⟨"N/A", rfl, by decide⟩
  | .int n =>
    rw [show duplicationBucket (.int n) = duplicationBucket (.float (.finite ⟨n, 0⟩)) from rfl]
    rw [duplicationBucket_finite]
    refine ⟨_, rfl, ?_⟩
    split_ifs <;> decide
  | .float x =>
    match x with
    | .finite d =>
      rw [duplicationBucket_finite]
      refine ⟨_, rfl, ?_⟩
      split_ifs <;> decide
    | .inf => exact ⟨"> 20%", by decide, by decide⟩
    | .ninf => exact ⟨"< 3%", by decide, by decide⟩
    | .nan => exact absurd rfl hc

/-- The quality-gate classifier is total over its three labels. -/
lemma gateBucket_mem (c : Cell) : gateBucket c ∈ gateLabels := by
  unfold gateBucket
  split_ifs <;> decide

/-- The rating table only ever produces one of the six letters. -/
lemma rating_map_get_mem (code : String) : rating_map_get code ∈ ratingLabels := by
  unfold rating_map_get
  cases hf : RATING_MAP.find? (fun kv => kv.1 == code) with
  | none => decide
  | some kv =>
    have hm := List.mem_of_find?_eq_some hf
    simp only [RATING_MAP, List.mem_cons, List.not_mem_nil, or_false] at hm
    rcases hm with rfl | rfl | rfl | rfl | rfl | rfl <;> decide

/-- Codes outside the five float-style grade strings translate to "N/A"
(including the defensive "N/A" passthrough entry of the table). -/
lemma rating_map_get_eq_na (code : String)
    (h : code ∉ ["1.0", "2.0", "3.0", "4.0", "5.0"]) : rating_map_get code = "N/A" := by
  simp only [List.mem_cons, not_or] at h
  obtain ⟨h1, h2, h3, h4, h5, -⟩ := h
  unfold rating_map_get RATING_MAP
  by_cases h6 : code = "N/A"
  · subst h6
    rfl
  · rw [show (fun kv : String × String => kv.1 == code) = fun kv => decide (kv.1 = code) from rfl]
    simp only [List.find?]
    rw [decide_eq_false (fun hh => h1 hh.symm), decide_eq_false (fun hh => h2 hh.symm),
      decide_eq_false (fun hh => h3 hh.symm), decide_eq_false (fun hh => h4 hh.symm),
      decide_eq_false (fun hh => h5 hh.symm), decide_eq_false (fun hh => h6 hh.symm)]

/-! ### The shape of a built detail row -/

/-- The float-typed metric conversion never raises: its result cell. -/
def floatCell (v : Option String) (dp : Option Nat) : Cell :=
  match v with
  | none => .str "N/A"
  | some s =>
    if stripUpper s = "N/A" then .str "N/A"
    else
      match parseFloat s with
      | none => .str "N/A"
      | some x =>
        .float (match dp with
          | none => x
          | some p => x.roundTo p)

lemma convert_float_ok (v : Option String) (dp : Option Nat) :
    convert_to_numeric_or_na v (.float dp) = .ok (floatCell v dp) := by
  cases v with
  | none => rfl
  | some s =>
    simp only [convert_to_numeric_or_na, floatCell]
    split_ifs with h
    · rfl
    · cases parseFloat s <;> rfl

/-- A successfully built workbook detail row has exactly this 18-cell
shape: name, key, the alert_status passthrough, the eight int metric cells,
the two one-decimal float cells, the four letter-rating cells, and the raw
last-analysis-date (None stays a None cell). -/
lemma buildRow_shape {p : Project} {row : List Cell} (h : buildRow p = .ok row) :
    ∃ c3 c4 c5 c6 c7 c8 c9 c10,
      convert_to_numeric_or_na (dictGet p.metrics "ncloc") .int = .ok c3 ∧
      convert_to_numeric_or_na (dictGet p.metrics "bugs") .int = .ok c4 ∧
      convert_to_numeric_or_na (dictGet p.metrics "reliability_rating") .int = .ok c5 ∧
      convert_to_numeric_or_na (dictGet p.metrics "vulnerabilities") .int = .ok c6 ∧
      convert_to_numeric_or_na (dictGet p.metrics "security_rating") .int = .ok c7 ∧
      convert_to_numeric_or_na (dictGet p.metrics "security_review_rating") .int = .ok c8 ∧
      convert_to_numeric_or_na (dictGet p.metrics "code_smells") .int = .ok c9 ∧
      convert_to_numeric_or_na (dictGet p.metrics "sqale_rating") .int = .ok c10 ∧
      row = [Cell.str p.name, Cell.str p.key,
             passCell (dictGet p.metrics "alert_status"),
             c3, c4, c5, c6, c7, c8, c9, c10,
             floatCell (dictGet p.metrics "duplicated_lines_density") (some 1),
             floatCell (dictGet p.metrics "coverage") (some 1),
             Cell.str (rating_map_get ((dictGet p.metrics "reliability_rating").getD "N/A")),
             Cell.str (rating_map_get ((dictGet p.metrics "security_rating").getD "N/A")),
             Cell.str (rating_map_get ((dictGet p.metrics "sqale_rating").getD "N/A")),
             Cell.str (rating_map_get ((dictGet p.metrics "security_review_rating").getD "N/A")),
             (match p.last_analysis_date with
              | some d => Cell.str d
              | none => Cell.null)] := by
  cases h3 : convert_to_numeric_or_na (dictGet p.metrics "ncloc") .int with
  | error e =>
    exfalso
    simp [buildRow, metricCellsE, metricCellE, excel_int_metrics, excel_float_metrics,
      List.contains, h3, convert_float_ok] at h
  | ok c3 =>
  cases h4 : convert_to_numeric_or_na (dictGet p.metrics "bugs") .int with
  | error e =>
    exfalso
    simp [buildRow, metricCellsE, metricCellE, excel_int_metrics, excel_float_metrics,
      List.contains, h3, h4, convert_float_ok] at h
  | ok c4 =>
  cases h5 : convert_to_numeric_or_na (dictGet p.metrics "reliability_rating") .int with
  | error e =>
    exfalso
    simp [buildRow, metricCellsE, metricCellE, excel_int_metrics, excel_float_metrics,
      List.contains, h3, h4, h5, convert_float_ok] at h
  | ok c5 =>
  cases h6 : convert_to_numeric_or_na (dictGet p.metrics "vulnerabilities") .int with
  | error e =>
    exfalso
    simp [buildRow, metricCellsE, metricCellE, excel_int_metrics, excel_float_metrics,
      List.contains, h3, h4, h5, h6, convert_float_ok] at h
  | ok c6 =>
  cases h7 : convert_to_numeric_or_na (dictGet p.metrics "security_rating") .int with
  | error e =>
    exfalso
    simp [buildRow, metricCellsE, metricCellE, excel_int_metrics, excel_float_metrics,
      List.contains, h3, h4, h5, h6, h7, convert_float_ok] at h
  | ok c7 =>
  cases h8 : convert_to_numeric_or_na (dictGet p.metrics "security_review_rating") .int with
  | error e =>
    exfalso
    simp [buildRow, metricCellsE, metricCellE, excel_int_metrics, excel_float_metrics,
      List.contains, h3, h4, h5, h6, h7, h8, convert_float_ok] at h
  | ok c8 =>
  cases h9 : convert_to_numeric_or_na (dictGet p.metrics "code_smells") .int with
  | error e =>
    exfalso
    simp [buildRow, metricCellsE, metricCellE, excel_int_metrics, excel_float_metrics,
      List.contains, h3, h4, h5, h6, h7, h8, h9, convert_float_ok] at h
  | ok c9 =>
  cases h10 : convert_to_numeric_or_na (dictGet p.metrics "sqale_rating") .int with
  | error e =>
    exfalso
    simp [buildRow, metricCellsE, metricCellE, excel_int_metrics, excel_float_metrics,
      List.contains, h3, h4, h5, h6, h7, h8, h9, h10, convert_float_ok] at h
  | ok c10 =>
    refine ⟨c3, c4, c5, c6, c7, c8, c9, c10, rfl, rfl, rfl, rfl, rfl, rfl, rfl, rfl, ?_⟩
    simp [buildRow, metricCellsE, metricCellE, excel_int_metrics, excel_float_metrics,
      List.contains, h3, h4, h5, h6, h7, h8, h9, h10, convert_float_ok,
      raw_metric_keys_list, ratingCell] at h
    exact h.symm

/-- Every row of a populated sheet is the built row of one input project. -/
lemma populate_mem {ps : List Project} {rows : List (List Cell)}
    (h : populate_sheet_with_data ps = .ok rows) :
    ∀ row ∈ rows, ∃ p, p ∈ ps ∧ buildRow p = .ok row := by
  induction ps generalizing rows with
  | nil =>
    simp only [populate_sheet_with_data, Except.ok.injEq] at h
    subst h
    intro row hr
    cases hr
  | cons p ps ih =>
    simp only [populate_sheet_with_data] at h
    cases hb : buildRow p with
    | error e => rw [hb] at h; cases h
    | ok row0 =>
      rw [hb] at h
      cases hp : populate_sheet_with_data ps with
      | error e => rw [hp] at h; cases h
      | ok rest =>
        rw [hp] at h
        simp only [Except.ok.injEq] at h
        subst h
        intro row hr
        rcases List.mem_cons.mp hr with rfl | hr2
        · exact ⟨p, List.mem_cons_self p ps, hb⟩
        · obtain ⟨q, hq1, hq2⟩ := ih hp row hr2
          exact ⟨q, List.mem_cons_of_mem _ hq1, hq2⟩

/-- A populated sheet has one data row per project. -/
lemma populate_length {ps : List Project} {rows : List (List Cell)}
    (h : populate_sheet_with_data ps = .ok rows) : rows.length = ps.length := by
  induction ps generalizing rows with
  | nil =>
    simp only [populate_sheet_with_data, Except.ok.injEq] at h
    subst h
    rfl
  | cons p ps ih =>
    simp only [populate_sheet_with_data] at h
    cases hb : buildRow p with
    | error e => rw [hb] at h; cases h
    | ok row0 =>
      rw [hb] at h
      cases hp : populate_sheet_with_data ps with
      | error e => rw [hp] at h; cases h
      | ok rest =>
        rw [hp] at h
        simp only [Except.ok.injEq] at h
        subst h
        simp [ih hp]

/-! ### Per-dimension consequences -/

/-- The quality-gate bucket counters always sum to the number of cells. -/
lemma gate_counts_sum (cells : List Cell) :
    sumCounts (calculate_quality_gate_counts cells) gateLabels = cells.length :=
  sum_counts_classifier (fun c => some (gateBucket c)) gateLabels (by decide) cells
    (fun c _ => ⟨gateBucket c, rfl, gateBucket_mem c⟩)

/-- The coverage bucket counters sum to the number of cells when no cell
holds the float nan. -/
lemma coverage_counts_sum (cells : List Cell)
    (h : ∀ c ∈ cells, c ≠ Cell.float PyNum.nan) :
    sumCounts (calculate_coverage_counts cells) coverageLabels = cells.length :=
  sum_counts_classifier coverageBucket coverageLabels (by decide) cells
    (fun c hc => coverageBucket_total c (h c hc))

/-- The duplication bucket counters sum to the number of cells when no cell
holds the float nan. -/
lemma duplication_counts_sum (cells : List Cell)
    (h : ∀ c ∈ cells, c ≠ Cell.float PyNum.nan) :
    sumCounts (calculate_duplication_counts cells) duplicationLabels = cells.length :=
  sum_counts_classifier duplicationBucket duplicationLabels (by decide) cells
    (fun c hc => duplicationBucket_total c (h c hc))

/-- Whether a cell equals the rating string lbl (the counted condition of
calculate_rating_counts). -/
def ratingHit (c : Cell) (lbl : String) : Bool :=
  match c with
  | Cell.str v => v == lbl
  | _ => false

/-- Whether a cell is a string among the six rating labels. -/
def ratingInSet (c : Cell) : Bool :=
  match c with
  | Cell.str v => ratingLabels.contains v
  | _ => false

lemma rating_counts_eq_hit (cells : List Cell) (lbl : String) :
    calculate_rating_counts cells lbl = cells.countP (fun c => ratingHit c lbl) := rfl

lemma ratingHit_sum (c : Cell) :
    (ratingLabels.map (fun lbl => if ratingHit c lbl = true then 1 else 0)).sum =
      if ratingInSet c = true then 1 else 0 := by
  match c with
  | Cell.str v =>
    by_cases hv : v ∈ ratingLabels
    · have h1 : (ratingLabels.map (fun lbl => if ratingHit (Cell.str v) lbl = true
          then 1 else 0)).sum = 1 := by
        apply sum_map_ite_eq_one (by decide) hv
        intro l
        show ratingHit (Cell.str v) l = (l == v)
        unfold ratingHit
        by_cases he : l = v
        · subst he; simp
        · simp [he, Ne.symm he]
      rw [h1]
      have hc : ratingInSet (Cell.str v) = true := by
        simpa [ratingInSet] using List.elem_iff.mpr hv
      rw [hc]
      rfl
    · have h0 : (ratingLabels.map (fun lbl => if ratingHit (Cell.str v) lbl = true
          then 1 else 0)).sum = 0 := by
        apply List.sum_eq_zero
        intro x hx
        obtain ⟨l, hl, rfl⟩ := List.mem_map.mp hx
        have hne : ¬ ratingHit (Cell.str v) l = true := by
          simp only [ratingHit, beq_iff_eq]
          exact fun hh => hv (hh ▸ hl)
        rw [if_neg hne]
      rw [h0]
      have hc : ¬ ratingInSet (Cell.str v) = true := by
        simp only [ratingInSet]
        exact fun hh => hv (List.elem_iff.mp hh)
      rw [if_neg hc]
  | Cell.int n => simp [ratingHit, ratingInSet]
  | Cell.float x => simp [ratingHit, ratingInSet]
  | Cell.null => simp [ratingHit, ratingInSet]

/-- The rating bucket counters sum to the number of cells whose value is a
string among the six labels: any other cell is counted in no bucket. -/
lemma rating_counts_sum_eq_countP (cells : List Cell) :
    sumCounts (calculate_rating_counts cells) ratingLabels =
      cells.countP ratingInSet := by
  induction cells with
  | nil => decide
  | cons c cs ih =>
    simp only [sumCounts, List.countP_cons] at *
    have hstep : ∀ lbl, calculate_rating_counts (c :: cs) lbl =
        calculate_rating_counts cs lbl + (if ratingHit c lbl = true then 1 else 0) := by
      intro lbl
      rw [rating_counts_eq_hit, rating_counts_eq_hit, List.countP_cons]
    rw [List.map_congr_left (fun lbl _ => hstep lbl)]
    rw [sum_map_add ratingLabels (fun lbl => calculate_rating_counts cs lbl)
      (fun lbl => if ratingHit c lbl = true then 1 else 0)]
    rw [show List.map (fun lbl => calculate_rating_counts cs lbl) ratingLabels =
      List.map (calculate_rating_counts cs) ratingLabels from rfl]
    rw [ih, ratingHit_sum]

/-- The rating bucket counters sum to the number of cells when every cell
is a string among the six labels (true for all built rows). -/
lemma rating_counts_sum (cells : List Cell)
    (h : ∀ c ∈ cells, ∃ v, c = Cell.str v ∧ v ∈ ratingLabels) :
    sumCounts (calculate_rating_counts cells) ratingLabels = cells.length := by
  rw [rating_counts_sum_eq_countP]
  rw [List.countP_eq_length]
  intro c hc
  obtain ⟨v, rfl, hv⟩ := h c hc
  simpa [ratingInSet] using List.elem_iff.mpr hv

/-- The four letter-rating cells of every built detail row hold one of the
six strings A/B/C/D/E/"N/A". -/
lemma built_rating_cells {p : Project} {row : List Cell} (h : buildRow p = .ok row) :
    ∀ i ∈ [13, 14, 15, 16], ∃ v, row.getD i Cell.null = Cell.str v ∧ v ∈ ratingLabels := by
  obtain ⟨c3, c4, c5, c6, c7, c8, c9, c10, -, -, -, -, -, -, -, -, hrow⟩ := buildRow_shape h
  subst hrow
  intro i hi
  fin_cases hi <;> exact ⟨_, rfl, rating_map_get_mem _⟩

/-! ### Evaluation of the interactive-table checked cells -/

/-- The displayed checked cells of a project once its eight int conversions
are known to succeed: the interactive table computes the same conversions
as the workbook row, then string-formats the two density columns. -/
lemma uiCheckedCells_eval (p : Project) {c3 c4 c5 c6 c7 c8 c9 c10 : Cell}
    (h3 : convert_to_numeric_or_na (dictGet p.metrics "ncloc") .int = .ok c3)
    (h4 : convert_to_numeric_or_na (dictGet p.metrics "bugs") .int = .ok c4)
    (h5 : convert_to_numeric_or_na (dictGet p.metrics "reliability_rating") .int = .ok c5)
    (h6 : convert_to_numeric_or_na (dictGet p.metrics "vulnerabilities") .int = .ok c6)
    (h7 : convert_to_numeric_or_na (dictGet p.metrics "security_rating") .int = .ok c7)
    (h8 : convert_to_numeric_or_na (dictGet p.metrics "security_review_rating") .int = .ok c8)
    (h9 : convert_to_numeric_or_na (dictGet p.metrics "code_smells") .int = .ok c9)
    (h10 : convert_to_numeric_or_na (dictGet p.metrics "sqale_rating") .int = .ok c10) :
    uiCheckedCellsE p cols_to_check =
      .ok [passCell (dictGet p.metrics "alert_status"), c3, c4, c5, c6, c7, c8, c9, c10,
           fmtFloat1 (floatCell (dictGet p.metrics "duplicated_lines_density") (some 1)),
           fmtFloat1 (floatCell (dictGet p.metrics "coverage") (some 1)),
           Cell.str (rating_map_get ((dictGet p.metrics "reliability_rating").getD "N/A")),
           Cell.str (rating_map_get ((dictGet p.metrics "security_rating").getD "N/A")),
           Cell.str (rating_map_get ((dictGet p.metrics "sqale_rating").getD "N/A")),
           Cell.str (rating_map_get ((dictGet p.metrics "security_review_rating").getD "N/A"))] := by
  have e1 : ui_display_cellE p "alert_status" =
      .ok (passCell (dictGet p.metrics "alert_status")) := rfl
  have e2 : ui_display_cellE p "ncloc" = .ok c3 := by
    unfold ui_display_cellE
    rw [show uiCellE p "ncloc" =
      convert_to_numeric_or_na (dictGet p.metrics "ncloc") AsType.int from rfl, h3]
    rfl
  have e3 : ui_display_cellE p "bugs" = .ok c4 := by
    unfold ui_display_cellE
    rw [show uiCellE p "bugs" =
      convert_to_numeric_or_na (dictGet p.metrics "bugs") AsType.int from rfl, h4]
    rfl
  have e4 : ui_display_cellE p "reliability_rating" = .ok c5 := by
    unfold ui_display_cellE
    rw [show uiCellE p "reliability_rating" =
      convert_to_numeric_or_na (dictGet p.metrics "reliability_rating") AsType.int from rfl, h5]
    rfl
  have e5 : ui_display_cellE p "vulnerabilities" = .ok c6 := by
    unfold ui_display_cellE
    rw [show uiCellE p "vulnerabilities" =
      convert_to_numeric_or_na (dictGet p.metrics "vulnerabilities") AsType.int from rfl, h6]
    rfl
  have e6 : ui_display_cellE p "security_rating" = .ok c7 := by
    unfold ui_display_cellE
    rw [show uiCellE p "security_rating" =
      convert_to_numeric_or_na (dictGet p.metrics "security_rating") AsType.int from rfl, h7]
    rfl
  have e7 : ui_display_cellE p "security_review_rating" = .ok c8 := by
    unfold ui_display_cellE
    rw [show uiCellE p "security_review_rating" =
      convert_to_numeric_or_na (dictGet p.metrics "security_review_rating") AsType.int from rfl,
      h8]
    rfl
  have e8 : ui_display_cellE p "code_smells" = .ok c9 := by
    unfold ui_display_cellE
    rw [show uiCellE p "code_smells" =
      convert_to_numeric_or_na (dictGet p.metrics "code_smells") AsType.int from rfl, h9]
    rfl
  have e9 : ui_display_cellE p "sqale_rating" = .ok c10 := by
    unfold ui_display_cellE
    rw [show uiCellE p "sqale_rating" =
      convert_to_numeric_or_na (dictGet p.metrics "sqale_rating") AsType.int from rfl, h10]
    rfl
  have e10 : ui_display_cellE p "duplicated_lines_density" =
      .ok (fmtFloat1 (floatCell (dictGet p.metrics "duplicated_lines_density") (some 1))) := by
    unfold ui_display_cellE
    rw [show uiCellE p "duplicated_lines_density" =
      convert_to_numeric_or_na (dictGet p.metrics "duplicated_lines_density")
        (AsType.float (some 1)) from rfl, convert_float_ok]
    rfl
  have e11 : ui_display_cellE p "coverage" =
      .ok (fmtFloat1 (floatCell (dictGet p.metrics "coverage") (some 1))) := by
    unfold ui_display_cellE
    rw [show uiCellE p "coverage" =
      convert_to_numeric_or_na (dictGet p.metrics "coverage")
        (AsType.float (some 1)) from rfl, convert_float_ok]
    rfl
  have e12 : ui_display_cellE p "Reliability Rating (A-E)" =
      .ok (Cell.str (rating_map_get ((dictGet p.metrics "reliability_rating").getD "N/A"))) := rfl
  have e13 : ui_display_cellE p "Security Rating (A-E)" =
      .ok (Cell.str (rating_map_get ((dictGet p.metrics "security_rating").getD "N/A"))) := rfl
  have e14 : ui_display_cellE p "Maintainability Rating (A-E)" =
      .ok (Cell.str (rating_map_get ((dictGet p.metrics "sqale_rating").getD "N/A"))) := rfl
  have e15 : ui_display_cellE p "Security Hotspot Rating (A-E)" =
      .ok (Cell.str (rating_map_get
        ((dictGet p.metrics "security_review_rating").getD "N/A"))) := rfl
  simp only [cols_to_check, uiCheckedCellsE, e1, e2, e3, e4, e5, e6, e7, e8, e9, e10,
    e11, e12, e13, e14, e15]

/-! ### Concrete examples used by the claims -/

/-- A project for which the source returned no metrics and no analysis
date. -/
def pAllNA : Project := ⟨"p", "k", [], none⟩

/-- The workbook row built for pAllNA. -/
def rowAllNA : List Cell :=
  [.str "p", .str "k", .str "N/A", .str "N/A", .str "N/A", .str "N/A", .str "N/A",
   .str "N/A", .str "N/A", .str "N/A", .str "N/A", .str "N/A", .str "N/A", .str "N/A",
   .str "N/A", .str "N/A", .str "N/A", .null]

/-- A project whose coverage sample is the string "nan". -/
def pNan : Project := ⟨"p", "k", [("coverage", "nan")], none⟩

/-- The workbook row built for pNan: the coverage cell is the float nan. -/
def rowNan : List Cell :=
  [.str "p", .str "k", .str "N/A", .str "N/A", .str "N/A", .str "N/A", .str "N/A",
   .str "N/A", .str "N/A", .str "N/A", .str "N/A", .str "N/A", .float .nan, .str "N/A",
   .str "N/A", .str "N/A", .str "N/A", .null]

/-- A project with one concrete int metric and nothing else. -/
def pNcloc : Project := ⟨"p", "k", [("ncloc", "5")], none⟩

/-- The workbook row built for pNcloc. -/
def rowNcloc : List Cell :=
  [.str "p", .str "k", .str "N/A", .int 5, .str "N/A", .str "N/A", .str "N/A",
   .str "N/A", .str "N/A", .str "N/A", .str "N/A", .str "N/A", .str "N/A", .str "N/A",
   .str "N/A", .str "N/A", .str "N/A", .null]

/-- The five-project quality-gate scenario of the spec. -/
def gateProjects : List Project :=
  [⟨"p1", "k1", [("alert_status", "OK")], none⟩,
   ⟨"p2", "k2", [("alert_status", "OK")], none⟩,
   ⟨"p3", "k3", [("alert_status", "ERROR")], none⟩,
   ⟨"p4", "k4", [("alert_status", "garbage")], none⟩,
   ⟨"p5", "k5", [], none⟩]

/-- The workbook rows built for gateProjects. -/
def gateRows : List (List Cell) :=
  [[.str "p1", .str "k1", .str "OK", .str "N/A", .str "N/A", .str "N/A", .str "N/A",
    .str "N/A", .str "N/A", .str "N/A", .str "N/A", .str "N/A", .str "N/A", .str "N/A",
    .str "N/A", .str "N/A", .str "N/A", .null],
   [.str "p2", .str "k2", .str "OK", .str "N/A", .str "N/A", .str "N/A", .str "N/A",
    .str "N/A", .str "N/A", .str "N/A", .str "N/A", .str "N/A", .str "N/A", .str "N/A",
    .str "N/A", .str "N/A", .str "N/A", .null],
   [.str "p3", .str "k3", .str "ERROR", .str "N/A", .str "N/A", .str "N/A", .str "N/A",
    .str "N/A", .str "N/A", .str "N/A", .str "N/A", .str "N/A", .str "N/A", .str "N/A",
    .str "N/A", .str "N/A", .str "N/A", .null],
   [.str "p4", .str "k4", .str "garbage", .str "N/A", .str "N/A", .str "N/A", .str "N/A",
    .str "N/A", .str "N/A", .str "N/A", .str "N/A", .str "N/A", .str "N/A", .str "N/A",
    .str "N/A", .str "N/A", .str "N/A", .null],
   [.str "p5", .str "k5", .str "N/A", .str "N/A", .str "N/A", .str "N/A", .str "N/A",
    .str "N/A", .str "N/A", .str "N/A", .str "N/A", .str "N/A", .str "N/A", .str "N/A",
    .str "N/A", .str "N/A", .str "N/A", .null]]

/-! ### The claims -/

/-- C1 (amended): for every project collection whose detail sheet builds
successfully, the bucket counts of the quality-gate dimension and of the
four letter-rating dimensions sum to the number of data rows, and so do
the coverage and duplication dimensions provided no cell of those two
columns holds the float nan (a nan cell, which arises exactly from a raw
"nan" sample, is counted in no bucket -- see the counterexample). -/
theorem c1_bucket_sums (ps : List Project) (rows : List (List Cell))
    (h : populate_sheet_with_data ps = .ok rows)
    (hdup : ∀ c ∈ column rows 11, c ≠ Cell.float PyNum.nan)
    (hcov : ∀ c ∈ column rows 12, c ≠ Cell.float PyNum.nan) :
    rows.length = ps.length ∧
    sumCounts (calculate_quality_gate_counts (column rows 2)) gateLabels = rows.length ∧
    sumCounts (calculate_coverage_counts (column rows 12)) coverageLabels = rows.length ∧
    sumCounts (calculate_duplication_counts (column rows 11)) duplicationLabels = rows.length ∧
    (∀ i ∈ [13, 14, 15, 16],
      sumCounts (calculate_rating_counts (column rows i)) ratingLabels = rows.length) ∧
    find_column_index create_headers "alert_status" = some 2 ∧
    find_column_index create_headers "duplicated_lines_density" = some 11 ∧
    find_column_index create_headers "coverage" = some 12 ∧
    find_column_index create_headers "Reliability Rating (A-E)" = some 13 ∧
    find_column_index create_headers "Security Rating (A-E)" = some 14 ∧
    find_column_index create_headers "Maintainability Rating (A-E)" = some 15 ∧
    find_column_index create_headers "Security Hotspot Rating (A-E)" = some 16 := by
  have hlen : ∀ i, (column rows i).length = rows.length := fun i => List.length_map _ _
  refine ⟨populate_length h, ?_, ?_, ?_, ?_, by decide, by decide, by decide, by decide,
    by decide, by decide, by decide⟩
  · rw [gate_counts_sum]
    exact hlen 2
  · rw [coverage_counts_sum _ hcov]
    exact hlen 12
  · rw [duplication_counts_sum _ hdup]
    exact hlen 11
  · intro i hi
    rw [rating_counts_sum]
    · exact hlen i
    · intro c hc
      obtain ⟨row, hrow, rfl⟩ := List.mem_map.mp hc
      obtain ⟨p, -, hb⟩ := populate_mem h row hrow
      exact built_rating_cells hb i hi

/-- Witness for c1_bucket_sums at a one-project collection. -/
theorem c1_bucket_sums_witness :
    sumCounts (calculate_quality_gate_counts (column [rowAllNA] 2)) gateLabels = 1 ∧
    sumCounts (calculate_coverage_counts (column [rowAllNA] 12)) coverageLabels = 1 := by
  have h := c1_bucket_sums [pAllNA] [rowAllNA] (by decide) (by decide) (by decide)
  exact ⟨h.2.1, h.2.2.1⟩

/-- C1 counterexample: one project whose coverage sample is "nan" yields a
sheet with 1 record whose coverage bucket counts sum to 0, refuting the
claim that every dimension always sums to the record count. -/
theorem c1_nan_breaks_sum :
    populate_sheet_with_data [pNan] = .ok [rowNan] ∧
    ([rowNan] : List (List Cell)).length = 1 ∧
    sumCounts (calculate_coverage_counts (column [rowNan] 12)) coverageLabels = 0 := by
  exact ⟨by decide, rfl, by decide⟩

/-- C2 (amended): the rating aggregation counts a cell under each of the
six labels exactly when the cell is that string; a string outside the six
labels is counted in no bucket at all -- in particular not in the N/A
bucket -- and for rows built by the record builder the four rating cells
always lie in the six labels, so no record is dropped in the pipeline. -/
theorem c2_rating_classification :
    (∀ cells : List Cell, sumCounts (calculate_rating_counts cells) ratingLabels =
      cells.countP ratingInSet) ∧
    (∀ cells : List Cell, calculate_rating_counts cells "N/A" =
      cells.countP (fun c => ratingHit c "N/A")) ∧
    (∀ p row, buildRow p = .ok row →
      ∀ i ∈ [13, 14, 15, 16], ∃ v, row.getD i Cell.null = Cell.str v ∧ v ∈ ratingLabels) :=
  ⟨rating_counts_sum_eq_countP, fun cells => rating_counts_eq_hit cells "N/A",
   fun _ _ h => built_rating_cells h⟩

/-- Witness for c2_rating_classification on a built row. -/
theorem c2_rating_classification_witness :
    ∃ v, rowAllNA.getD 13 Cell.null = Cell.str v ∧ v ∈ ratingLabels :=
  c2_rating_classification.2.2 pAllNA rowAllNA (by decide) 13 (by decide)

/-- C2 counterexample: a rating cell holding "Z" (not one of A-E or "N/A")
is counted in no bucket: the N/A counter stays 0 although the claim says
the row counts as N/A. -/
theorem c2_unknown_value_dropped :
    calculate_rating_counts [Cell.str "Z"] "N/A" = 0 ∧
    sumCounts (calculate_rating_counts [Cell.str "Z"]) ratingLabels = 0 := by decide

/-- C3 (amended): when a project has a null last-analysis timestamp, the
interactive-table path stores the string "N/A", but the workbook path
appends the null unchanged, leaving an empty (None) cell rather than
"N/A". -/
theorem c3_last_analysis_date (p : Project) (hnull : p.last_analysis_date = none) :
    ui_last_analysis_date p = Cell.str "N/A" ∧
    (∀ row, buildRow p = .ok row → row.getD 17 Cell.null = Cell.null) := by
  constructor
  · unfold ui_last_analysis_date
    rw [hnull]
  · intro row h
    obtain ⟨c3, c4, c5, c6, c7, c8, c9, c10, -, -, -, -, -, -, -, -, hrow⟩ := buildRow_shape h
    subst hrow
    show (match p.last_analysis_date with
      | some d => Cell.str d
      | none => Cell.null) = Cell.null
    rw [hnull]

/-- Witness for c3_last_analysis_date at a concrete project. -/
theorem c3_last_analysis_date_witness :
    ui_last_analysis_date pAllNA = Cell.str "N/A" ∧
    rowAllNA.getD 17 Cell.null = Cell.null := by
  have h := c3_last_analysis_date pAllNA rfl
  exact ⟨h.1, h.2 rowAllNA (by decide)⟩

/-- C3 counterexample: the workbook detail row of a project with a null
timestamp carries a None cell, not the string "N/A", in its
last-analysis-date column. -/
theorem c3_workbook_null_date :
    buildRow pAllNA = .ok rowAllNA ∧
    rowAllNA.getD 17 Cell.null = Cell.null ∧
    rowAllNA.getD 17 Cell.null ≠ Cell.str "N/A" := by decide

/-- C4 (amended): the normalizer maps null and stripped case-insensitive
"N/A" to Unavailable for every kind, maps every parse failure of a numeric
kind to Unavailable, and satisfies the quoted examples; it returns without
raising for every input except a string parsing to an infinity under the
Int kind, where int(float(v)) raises OverflowError, which the
except (ValueError, TypeError) clause does not catch. -/
theorem c4_normalize :
    (∀ k : AsType, convert_to_numeric_or_na none k = .ok (.str "N/A")) ∧
    (∀ s k, stripUpper s = "N/A" →
      convert_to_numeric_or_na (some s) k = .ok (.str "N/A")) ∧
    (∀ s, parseFloat s = none →
      convert_to_numeric_or_na (some s) .int = .ok (.str "N/A") ∧
      ∀ dp, convert_to_numeric_or_na (some s) (.float dp) = .ok (.str "N/A")) ∧
    (∀ v k, (∃ c, convert_to_numeric_or_na v k = .ok c) ∨
      (k = .int ∧ ∃ s, v = some s ∧
        (parseFloat s = some .inf ∨ parseFloat s = some .ninf) ∧
        convert_to_numeric_or_na v k = .error .overflowError)) ∧
    convert_to_numeric_or_na (some "N/A") .int = .ok (.str "N/A") ∧
    convert_to_numeric_or_na none (.float (some 1)) = .ok (.str "N/A") ∧
    convert_to_numeric_or_na (some "3.7") .int = .ok (.int 3) ∧
    convert_to_numeric_or_na (some "12.345") (.float (some 1)) =
      .ok (.float (.finite ⟨123, 1⟩)) ∧
    Dec.val ⟨123, 1⟩ = 12.3 := by
  refine ⟨?_, ?_, ?_, ?_, by decide, by decide, by decide, by decide, ?_⟩
  · intro k
    rfl
  · intro s k hs
    simp only [convert_to_numeric_or_na]
    rw [if_pos hs]
  · intro s hps
    constructor
    · simp only [convert_to_numeric_or_na, hps]
      split_ifs <;> rfl
    · intro dp
      simp only [convert_to_numeric_or_na, hps]
      split_ifs <;> rfl
  · intro v k
    match v with
    | none => exact Or.inl ⟨.str "N/A", rfl⟩
    | some s =>
      by_cases hs : stripUpper s = "N/A"
      · refine Or.inl ⟨.str "N/A", ?_⟩
        simp only [convert_to_numeric_or_na]
        rw [if_pos hs]
      · match k with
        | .passthrough =>
          refine Or.inl ⟨.str s, ?_⟩
          simp only [convert_to_numeric_or_na]
          rw [if_neg hs]
        | .float dp => exact Or.inl ⟨_, convert_float_ok _ _⟩
        | .int =>
          cases hp : parseFloat s with
          | none =>
            refine Or.inl ⟨.str "N/A", ?_⟩
            simp only [convert_to_numeric_or_na, hp]
            rw [if_neg hs]
          | some x =>
            match x with
            | .finite d =>
              refine Or.inl ⟨.int d.trunc, ?_⟩
              simp only [convert_to_numeric_or_na, hp]
              rw [if_neg hs]
            | .nan =>
              refine Or.inl ⟨.str "N/A", ?_⟩
              simp only [convert_to_numeric_or_na, hp]
              rw [if_neg hs]
            | .inf =>
              refine Or.inr ⟨rfl, s, rfl, Or.inl hp, ?_⟩
              simp only [convert_to_numeric_or_na, hp]
              rw [if_neg hs]
            | .ninf =>
              refine Or.inr ⟨rfl, s, rfl, Or.inr hp, ?_⟩
              simp only [convert_to_numeric_or_na, hp]
              rw [if_neg hs]
  · unfold Dec.val
    norm_num

/-- Witness for c4_normalize at concrete inputs with the hypotheses
discharged. -/
theorem c4_normalize_witness :
    (stripUpper " n/a " = "N/A" ∧
      convert_to_numeric_or_na (some " n/a ") AsType.int = .ok (.str "N/A")) ∧
    (parseFloat "abc" = none ∧
      convert_to_numeric_or_na (some "abc") AsType.int = .ok (.str "N/A")) :=
  ⟨⟨by decide, c4_normalize.2.1 " n/a " AsType.int (by decide)⟩,
   ⟨by decide, (c4_normalize.2.2.1 "abc" (by decide)).1⟩⟩

/-- C4 counterexample: normalize("inf", Int) raises OverflowError -- the
uncaught exception escapes, refuting the no-raise claim. -/
theorem c4_inf_overflow :
    convert_to_numeric_or_na (some "inf") AsType.int = .error .overflowError ∧
    convert_to_numeric_or_na (some "Infinity") AsType.int = .error .overflowError := by decide

/-- C5 (confirmed): the rating translation follows the fixed table on the
exact string forms, and every other string -- including "6.0", the empty
string and the plain-integer form "1" -- maps to "N/A". -/
theorem c5_rating_translation :
    rating_map_get "1.0" = "A" ∧ rating_map_get "2.0" = "B" ∧
    rating_map_get "3.0" = "C" ∧ rating_map_get "4.0" = "D" ∧
    rating_map_get "5.0" = "E" ∧
    (∀ s, s ∉ ["1.0", "2.0", "3.0", "4.0", "5.0"] → rating_map_get s = "N/A") ∧
    rating_map_get "6.0" = "N/A" ∧ rating_map_get "" = "N/A" ∧
    rating_map_get "1" = "N/A" :=
  ⟨by decide, by decide, by decide, by decide, by decide, rating_map_get_eq_na,
   by decide, by decide, by decide⟩

/-- Witness for c5_rating_translation on a code outside the table. -/
theorem c5_rating_translation_witness :
    "6.0" ∉ ["1.0", "2.0", "3.0", "4.0", "5.0"] ∧ rating_map_get "6.0" = "N/A" :=
  ⟨by decide, c5_rating_translation.2.2.2.2.2.1 "6.0" (by decide)⟩

/-! ### Half-open boundary characterizations for C6 -/

lemma coverage_lt10_iff (d : Dec) :
    coverageBucket (.float (.finite d)) = some "< 10%" ↔ d.val < 10 := by
  rw [coverageBucket_finite, Option.some_inj]
  constructor
  · intro h
    by_contra hlt
    rw [if_neg hlt] at h
    split_ifs at h <;> simp at h
  · intro h
    rw [if_pos h]

lemma coverage_10_30_iff (d : Dec) :
    coverageBucket (.float (.finite d)) = some "10% - 30%" ↔ 10 ≤ d.val ∧ d.val < 30 := by
  rw [coverageBucket_finite, Option.some_inj]
  constructor
  · intro h
    split_ifs at h with h1 h2 h3 h4 <;> first | exact ⟨not_lt.mp h1, h2⟩ | simp at h
  · rintro ⟨ha, hb⟩
    rw [if_neg (not_lt.mpr ha), if_pos hb]

lemma coverage_30_50_iff (d : Dec) :
    coverageBucket (.float (.finite d)) = some "30% - 50%" ↔ 30 ≤ d.val ∧ d.val < 50 := by
  rw [coverageBucket_finite, Option.some_inj]
  constructor
  · intro h
    split_ifs at h with h1 h2 h3 h4 <;> first | exact ⟨not_lt.mp h2, h3⟩ | simp at h
  · rintro ⟨ha, hb⟩
    rw [if_neg (not_lt.mpr (by linarith)), if_neg (not_lt.mpr ha), if_pos hb]

lemma coverage_50_80_iff (d : Dec) :
    coverageBucket (.float (.finite d)) = some "50% - 80%" ↔ 50 ≤ d.val ∧ d.val < 80 := by
  rw [coverageBucket_finite, Option.some_inj]
  constructor
  · intro h
    split_ifs at h with h1 h2 h3 h4 <;> first | exact ⟨not_lt.mp h3, h4⟩ | simp at h
  · rintro ⟨ha, hb⟩
    rw [if_neg (not_lt.mpr (by linarith)), if_neg (not_lt.mpr (by linarith)),
      if_neg (not_lt.mpr ha), if_pos hb]

lemma coverage_ge80_iff (d : Dec) :
    coverageBucket (.float (.finite d)) = some "> 80%" ↔ 80 ≤ d.val := by
  rw [coverageBucket_finite, Option.some_inj]
  constructor
  · intro h
    split_ifs at h with h1 h2 h3 h4 <;> first | exact not_lt.mp h4 | simp at h
  · intro ha
    rw [if_neg (not_lt.mpr (by linarith)), if_neg (not_lt.mpr (by linarith)),
      if_neg (not_lt.mpr (by linarith)), if_neg (not_lt.mpr ha)]

lemma duplication_lt3_iff (d : Dec) :
    duplicationBucket (.float (.finite d)) = some "< 3%" ↔ d.val < 3 := by
  rw [duplicationBucket_finite, Option.some_inj]
  constructor
  · intro h
    by_contra hlt
    rw [if_neg hlt] at h
    split_ifs at h <;> simp at h
  · intro h
    rw [if_pos h]

lemma duplication_3_5_iff (d : Dec) :
    duplicationBucket (.float (.finite d)) = some "3% - 5%" ↔ 3 ≤ d.val ∧ d.val < 5 := by
  rw [duplicationBucket_finite, Option.some_inj]
  constructor
  · intro h
    split_ifs at h with h1 h2 h3 h4 <;> first | exact ⟨not_lt.mp h1, h2⟩ | simp at h
  · rintro ⟨ha, hb⟩
    rw [if_neg (not_lt.mpr ha), if_pos hb]

lemma duplication_5_10_iff (d : Dec) :
    duplicationBucket (.float (.finite d)) = some "5% - 10%" ↔ 5 ≤ d.val ∧ d.val < 10 := by
  rw [duplicationBucket_finite, Option.some_inj]
  constructor
  · intro h
    split_ifs at h with h1 h2 h3 h4 <;> first | exact ⟨not_lt.mp h2, h3⟩ | simp at h
  · rintro ⟨ha, hb⟩
    rw [if_neg (not_lt.mpr (by linarith)), if_neg (not_lt.mpr ha), if_pos hb]

lemma duplication_10_20_iff (d : Dec) :
    duplicationBucket (.float (.finite d)) = some "10% - 20%" ↔ 10 ≤ d.val ∧ d.val < 20 := by
  rw [duplicationBucket_finite, Option.some_inj]
  constructor
  · intro h
    split_ifs at h with h1 h2 h3 h4 <;> first | exact ⟨not_lt.mp h3, h4⟩ | simp at h
  · rintro ⟨ha, hb⟩
    rw [if_neg (not_lt.mpr (by linarith)), if_neg (not_lt.mpr (by linarith)),
      if_neg (not_lt.mpr ha), if_pos hb]

lemma duplication_ge20_iff (d : Dec) :
    duplicationBucket (.float (.finite d)) = some "> 20%" ↔ 20 ≤ d.val := by
  rw [duplicationBucket_finite, Option.some_inj]
  constructor
  · intro h
    split_ifs at h with h1 h2 h3 h4 <;> first | exact not_lt.mp h4 | simp at h
  · intro ha
    rw [if_neg (not_lt.mpr (by linarith)), if_neg (not_lt.mpr (by linarith)),
      if_neg (not_lt.mpr (by linarith)), if_neg (not_lt.mpr ha)]

lemma coverageBucket_na_iff (c : Cell) :
    coverageBucket c = some "N/A" ↔ c.asNum? = none := by
  match c with
  | .str s => simp [coverageBucket, Cell.asNum?]
  | .null => simp [coverageBucket, Cell.asNum?]
  | .int n =>
    rw [show coverageBucket (.int n) =
      coverageBucket (.float (.finite ⟨n, 0⟩)) from rfl, coverageBucket_finite]
    simp only [Cell.asNum?, Option.some_inj, iff_false, reduceCtorEq]
    split_ifs <;> decide
  | .float x =>
    match x with
    | .finite d =>
      rw [coverageBucket_finite]
      simp only [Cell.asNum?, Option.some_inj, iff_false, reduceCtorEq]
      split_ifs <;> decide
    | .inf => simp [coverageBucket, Cell.asNum?, PyNum.lt, PyNum.le, Dec.ltB, Dec.leB]
    | .ninf => simp [coverageBucket, Cell.asNum?, PyNum.lt, PyNum.le, Dec.ltB, Dec.leB]
    | .nan => simp [coverageBucket, Cell.asNum?, PyNum.lt, PyNum.le]

lemma duplicationBucket_na_iff (c : Cell) :
    duplicationBucket c = some "N/A" ↔ c.asNum? = none := by
  match c with
  | .str s => simp [duplicationBucket, Cell.asNum?]
  | .null => simp [duplicationBucket, Cell.asNum?]
  | .int n =>
    rw [show duplicationBucket (.int n) =
      duplicationBucket (.float (.finite ⟨n, 0⟩)) from rfl, duplicationBucket_finite]
    simp only [Cell.asNum?, Option.some_inj, iff_false, reduceCtorEq]
    split_ifs <;> decide
  | .float x =>
    match x with
    | .finite d =>
      rw [duplicationBucket_finite]
      simp only [Cell.asNum?, Option.some_inj, iff_false, reduceCtorEq]
      split_ifs <;> decide
    | .inf => simp [duplicationBucket, Cell.asNum?, PyNum.lt, PyNum.le, Dec.ltB, Dec.leB]
    | .ninf => simp [duplicationBucket, Cell.asNum?, PyNum.lt, PyNum.le, Dec.ltB, Dec.leB]
    | .nan => simp [duplicationBucket, Cell.asNum?, PyNum.lt, PyNum.le]

/-- C6 (confirmed): bucket classification uses half-open ranges with an
unbounded top bucket (coverage <10, 10-30, 30-50, 50-80, >=80; duplication
<3, 3-5, 5-10, 10-20, >=20, each iff on the exact value); a cell is
classified N/A exactly when it is not numeric, so Unavailable ("N/A")
cells never reach a numeric bucket; coverage 10 lands in the 10%-30%
bucket and 85.0 in the >80% bucket. -/
theorem c6_bucket_boundaries :
    (∀ d : Dec,
      (coverageBucket (.float (.finite d)) = some "< 10%" ↔ d.val < 10) ∧
      (coverageBucket (.float (.finite d)) = some "10% - 30%" ↔ 10 ≤ d.val ∧ d.val < 30) ∧
      (coverageBucket (.float (.finite d)) = some "30% - 50%" ↔ 30 ≤ d.val ∧ d.val < 50) ∧
      (coverageBucket (.float (.finite d)) = some "50% - 80%" ↔ 50 ≤ d.val ∧ d.val < 80) ∧
      (coverageBucket (.float (.finite d)) = some "> 80%" ↔ 80 ≤ d.val)) ∧
    (∀ d : Dec,
      (duplicationBucket (.float (.finite d)) = some "< 3%" ↔ d.val < 3) ∧
      (duplicationBucket (.float (.finite d)) = some "3% - 5%" ↔ 3 ≤ d.val ∧ d.val < 5) ∧
      (duplicationBucket (.float (.finite d)) = some "5% - 10%" ↔ 5 ≤ d.val ∧ d.val < 10) ∧
      (duplicationBucket (.float (.finite d)) = some "10% - 20%" ↔ 10 ≤ d.val ∧ d.val < 20) ∧
      (duplicationBucket (.float (.finite d)) = some "> 20%" ↔ 20 ≤ d.val)) ∧
    (∀ c : Cell, coverageBucket c = some "N/A" ↔ c.asNum? = none) ∧
    (∀ c : Cell, duplicationBucket c = some "N/A" ↔ c.asNum? = none) ∧
    coverageBucket (Cell.str "N/A") = some "N/A" ∧
    duplicationBucket (Cell.str "N/A") = some "N/A" ∧
    coverageBucket (.float (.finite ⟨10, 0⟩)) = some "10% - 30%" ∧
    coverageBucket (.float (.finite ⟨850, 1⟩)) = some "> 80%" ∧
    Dec.val ⟨850, 1⟩ = 85 :=
  ⟨fun d => ⟨coverage_lt10_iff d, coverage_10_30_iff d, coverage_30_50_iff d,
     coverage_50_80_iff d, coverage_ge80_iff d⟩,
   fun d => ⟨duplication_lt3_iff d, duplication_3_5_iff d, duplication_5_10_iff d,
     duplication_10_20_iff d, duplication_ge20_iff d⟩,
   coverageBucket_na_iff, duplicationBucket_na_iff, by decide, by decide, by decide,
   by decide, by norm_num [Dec.val]⟩

/-- C7 (confirmed): the quality-gate aggregation counts a cell under OK
iff it is the exact string "OK", under ERROR iff it is the exact "ERROR",
and under N/A otherwise; a missing alert_status is passed through as
"N/A"; the five-project scenario with alert_status values OK, OK, ERROR,
"garbage" and null yields counts OK 2, ERROR 1, N/A 2. -/
theorem c7_quality_gate :
    (∀ c : Cell,
      (gateBucket c = "OK" ↔ c = Cell.str "OK") ∧
      (gateBucket c = "ERROR" ↔ c = Cell.str "ERROR") ∧
      (gateBucket c = "N/A" ↔ c ≠ Cell.str "OK" ∧ c ≠ Cell.str "ERROR")) ∧
    passCell none = Cell.str "N/A" ∧
    populate_sheet_with_data gateProjects = .ok gateRows ∧
    column gateRows 2 =
      [Cell.str "OK", Cell.str "OK", Cell.str "ERROR", Cell.str "garbage",
       Cell.str "N/A"] ∧
    calculate_quality_gate_counts (column gateRows 2) "OK" = 2 ∧
    calculate_quality_gate_counts (column gateRows 2) "ERROR" = 1 ∧
    calculate_quality_gate_counts (column gateRows 2) "N/A" = 2 := by
  refine ⟨?_, rfl, by decide, by decide, by decide, by decide, by decide⟩
  intro c
  unfold gateBucket
  refine ⟨?_, ?_, ?_⟩ <;> (split_ifs with h1 h2 <;> simp_all)

/-- C8 (amended): the workbook criterion flags a row iff every cell of
columns 3 through second-to-last equals the exact string "N/A"; the
interactive criterion checks the same fifteen logical columns but treats
a cell as harmless when it is a string stripping case-insensitively to
"N/A" or any non-null, non-nan numeric value.  The workbook criterion
strictly implies the interactive one (this theorem); the converse fails
(see the counterexample with a numeric ncloc cell), so the two criteria
are not the same. -/
theorem c8_excel_flag_implies_ui_flag (p : Project) (row : List Cell)
    (hb : buildRow p = .ok row) (hex : highlight_na_rows_excel row = true) :
    highlight_ui p = .ok true := by
  obtain ⟨c3, c4, c5, c6, c7, c8, c9, c10, h3, h4, h5, h6, h7, h8, h9, h10, hrow⟩ :=
    buildRow_shape hb
  subst hrow
  simp only [highlight_na_rows_excel, List.drop, List.dropLast, List.all_cons, List.all_nil,
    Bool.and_eq_true, decide_eq_true_eq, and_true] at hex
  obtain ⟨e2, e3, e4, e5, e6, e7, e8, e9, e10, e11, e12, e13, e14, e15, e16⟩ := hex
  subst e3 e4 e5 e6 e7 e8 e9 e10
  unfold highlight_ui
  rw [uiCheckedCells_eval p h3 h4 h5 h6 h7 h8 h9 h10]
  rw [e2, e11, e12, e13, e14, e15, e16]
  rfl

/-- Witness for c8_excel_flag_implies_ui_flag on the all-N/A project. -/
theorem c8_excel_flag_implies_ui_flag_witness :
    highlight_na_rows_excel rowAllNA = true ∧ highlight_ui pAllNA = .ok true :=
  ⟨by decide, c8_excel_flag_implies_ui_flag pAllNA rowAllNA (by decide) (by decide)⟩

/-- C8 counterexample: a project whose only metric is ncloc = 5 is not
flagged by the workbook criterion (the int cell 5 is not "N/A") but is
flagged by the interactive criterion (a numeric cell never clears the
flag), so the two criteria differ. -/
theorem c8_criteria_differ :
    buildRow pNcloc = .ok rowNcloc ∧
    highlight_na_rows_excel rowNcloc = false ∧
    highlight_ui pNcloc = .ok true := by decide

/-- C9 (confirmed): sorting the detail rows returns exactly the input rows
(a permutation), in ascending order of the case-lowered project-name key,
stably (rows with equal keys keep their original relative order), and the
Banana/apple/Cherry example sorts to apple, Banana, Cherry. -/
theorem c9_detail_sort :
    (∀ rows : List (List Cell), (sort_and_clear_sheet rows).Perm rows) ∧
    (∀ rows : List (List Cell), List.Sorted rowLe (sort_and_clear_sheet rows)) ∧
    (∀ (rows : List (List Cell)) (k : List Char),
      (sort_and_clear_sheet rows).filter (fun x => rowKey x == k) =
        rows.filter (fun x => rowKey x == k)) ∧
    sort_and_clear_sheet [[.str "Banana"], [.str "apple"], [.str "Cherry"]] =
      [[.str "apple"], [.str "Banana"], [.str "Cherry"]] :=
  ⟨fun rows => List.perm_insertionSort rowLe rows,
   fun rows => List.sorted_insertionSort rowLe rows,
   sort_filter_stable, by decide⟩

/-- C10 (confirmed): a rating cell is always one of the six strings A, B,
C, D, E, "N/A" -- RATING_MAP.get with default "N/A" never yields anything
else; an absent metric and any code outside "1.0".."5.0" give "N/A"; both
the workbook path and the interactive-table path produce cells in this
range. -/
theorem c10_rating_cell_range :
    (∀ code : String, rating_map_get code ∈ ratingLabels) ∧
    (∀ (m : String → Option String) (k : String), m k = none →
      ratingCell m k = Cell.str "N/A" ∧ uiRatingCell m k = Cell.str "N/A") ∧
    (∀ code : String, code ∉ ["1.0", "2.0", "3.0", "4.0", "5.0"] →
      rating_map_get code = "N/A") ∧
    (∀ p row, buildRow p = .ok row →
      ∀ i ∈ [13, 14, 15, 16], ∃ v, row.getD i Cell.null = Cell.str v ∧ v ∈ ratingLabels) ∧
    (∀ (m : String → Option String) (k : String),
      ∃ v, uiRatingCell m k = Cell.str v ∧ v ∈ ratingLabels) := by
  refine ⟨rating_map_get_mem, ?_, rating_map_get_eq_na,
    fun _ _ h => built_rating_cells h, ?_⟩
  · intro m k hk
    unfold ratingCell uiRatingCell
    rw [hk]
    exact ⟨rfl, rfl⟩
  · intro m k
    exact ⟨_, rfl, rating_map_get_mem _⟩

/-- Witness for c10_rating_cell_range on concrete inputs. -/
theorem c10_rating_cell_range_witness :
    rating_map_get "7.0" = "N/A" ∧
    (∃ v, rowNcloc.getD 14 Cell.null = Cell.str v ∧ v ∈ ratingLabels) :=
  ⟨c10_rating_cell_range.2.2.1 "7.0" (by decide),
   c10_rating_cell_range.2.2.2.1 pNcloc rowNcloc (by decide) 14 (by decide)⟩
